import Mathlib

/-!
Shallow embedding of the zdopt server core (Go) and verification of its
specification claims.

Modules embedded, in order:
* `ObjectPool/pobject.go` — the pooled-object wrapper `PObject`
* `ObjectPool/object_pool_manager.go` — `GenericObjectPool`, `Manager`,
  `RegisterPool`, `GetPool`
* `Actor/base.go` — the lock-free `MessageQueue` and the `BaseActor`
  processing loop's cancellation behaviour
* `Actor/balancer.go` — the elastic worker `Balancer`
* `Timer/ztimer.go`, `Timer/safe.go` — timer construction, keyframe
  validation and keyframe triggering

Side effects of the Go code (callback invocations, `OnGet`/`OnRelease`
calls, executed keyframe actions) are made observable as explicit event
lists returned alongside the new state.  Go `uint64` arithmetic is
modelled on `Nat` with explicit `% 2 ^ 64`; Go bitwise ops map to
`Nat.land`.  An operation that would panic in Go (out-of-range slice
store, modulo by zero) is modelled by an `Option` result of `none`.
-/

namespace Zdopt

/-! ### ObjectPool/pobject.go — PObject

`PObject[T]` wraps one value with an exclusive-use flag and two stored
callbacks.  Callbacks are modelled as opaque identifiers (`Nat`); an
invocation of callback `c` on argument `x` is recorded as the event
`(c, x)`. -/

structure PObject (T : Type) where
  date : T
  isUsing : Bool
  init : Option Nat
  callback : Option Nat
  deriving Repr, DecidableEq

/-- Go `NewPObject` (pobject.go): fresh wrapper, not in use, no callbacks. -/
def NewPObject {T : Type} (date : T) : PObject T :=
  { date := date, isUsing := false, init := none, callback := none }

/-- Result of `PObject.GetObj`: new state, returned value, ok flag, and
the callback invocations performed. -/
structure GetResult (T : Type) where
  state : PObject T
  value : T
  ok : Bool
  events : List (Nat × T)
  deriving Repr, DecidableEq

/-- Result of `PObject.ReleaseObj`: new state, ok flag, and the callback
invocations performed. -/
structure RelResult (T : Type) where
  state : PObject T
  ok : Bool
  events : List (Nat × T)
  deriving Repr, DecidableEq

/-- Go `PObject.GetObj` (pobject.go lines 22–39): fails returning the zero
value if already in use; otherwise marks in-use, stores both callbacks,
invokes `init(date)` when non-nil, and returns the value with ok. -/
def PObject.GetObj {T : Type} [Inhabited T]
    (p : PObject T) (init cb : Option Nat) : GetResult T :=
  if p.isUsing then
    { state := p, value := default, ok := false, events := [] }
  else
    let p' : PObject T := { p with isUsing := true, init := init, callback := cb }
    { state := p'
      value := p.date
      ok := true
      events := match init with
        | some i => [(i, p.date)]
        | none => [] }

/-- Go `PObject.ReleaseObj` as written (pobject.go lines 42–58).  The guard
is `if p.isUsing { return false }`: the call fails when the object IS in
use, and on a not-in-use object it proceeds, invokes the stored callback
if any, clears both callback references and returns true. -/
def PObject.ReleaseObj {T : Type} (p : PObject T) (obj : T) : RelResult T :=
  if p.isUsing then
    { state := p, ok := false, events := [] }
  else
    { state := { p with isUsing := false, init := none, callback := none }
      ok := true
      events := match p.callback with
        | some c => [(c, obj)]
        | none => [] }

/-! Trace semantics over `PObject`: a sequence of `GetObj` / `ReleaseObj`
calls, used for the alternation claim. -/

/-- One call against a `PObject`. -/
inductive POp (T : Type) where
  | get (init cb : Option Nat)
  | release (obj : T)
  deriving Repr, DecidableEq

/-- Apply one call, keeping only the resulting state. -/
def PObject.stepState {T : Type} [Inhabited T] (p : PObject T) : POp T → PObject T
  | .get i c => (p.GetObj i c).state
  | .release o => (p.ReleaseObj o).state

/-- Apply a sequence of calls, keeping only the final state. -/
def PObject.runOps {T : Type} [Inhabited T] (p : PObject T) : List (POp T) → PObject T
  | [] => p
  | op :: ops => (p.stepState op).runOps ops

/-- Returns `true` when the given call, applied at the given state, is a
`ReleaseObj` that returns ok. -/
def releaseSucceeds {T : Type} [Inhabited T] (p : PObject T) : POp T → Bool
  | .get _ _ => false
  | .release o => (p.ReleaseObj o).ok

/-- Returns `true` when no call of the sequence, run from `p`, is a successful
`ReleaseObj`. -/
def NoSuccessfulRelease {T : Type} [Inhabited T] (p : PObject T) : List (POp T) → Bool
  | [] => true
  | op :: ops => !releaseSucceeds p op && NoSuccessfulRelease (p.stepState op) ops

/-- From an in-use state, any single call leaves the object in use: a
`GetObj` fails without mutating, and `ReleaseObj` (with its inverted
guard) returns false without mutating. -/
theorem stepState_isUsing {T : Type} [Inhabited T]
    (p : PObject T) (op : POp T) (h : p.isUsing = true) :
    (p.stepState op).isUsing = true := by
  cases op with
  | get i c => simp [PObject.stepState, PObject.GetObj, h]
  | release o => simp [PObject.stepState, PObject.ReleaseObj, h]

/-- From an in-use state, the object stays in use across any sequence of
calls. -/
theorem runOps_isUsing {T : Type} [Inhabited T]
    (p : PObject T) (ops : List (POp T)) (h : p.isUsing = true) :
    (p.runOps ops).isUsing = true := by
  induction ops generalizing p with
  | nil => simpa [PObject.runOps] using h
  | cons op ops ih =>
      simp only [PObject.runOps]
      exact ih _ (stepState_isUsing p op h)

/-- C1: the claim says `ReleaseObj` fails when the object is not in use
and succeeds (invoking the stored callback, clearing state) when it is
in use.  The code's guard is inverted (`if p.isUsing { return false }`),
so the opposite happens: after a successful `GetObj` the release of the
checked-out object returns false and invokes nothing, while a release of
a never-acquired object returns true. -/
theorem C1_release_guard_inverted :
    ((NewPObject (0 : Nat)).GetObj (some 1) (some 2)).ok = true ∧
    ((NewPObject (0 : Nat)).GetObj (some 1) (some 2)).state.isUsing = true ∧
    ((((NewPObject (0 : Nat)).GetObj (some 1) (some 2)).state).ReleaseObj 0).ok = false ∧
    ((((NewPObject (0 : Nat)).GetObj (some 1) (some 2)).state).ReleaseObj 0).events = [] ∧
    (NewPObject (0 : Nat)).isUsing = false ∧
    ((NewPObject (0 : Nat)).ReleaseObj 0).ok = true := by
  decide

/-- Lemma: `GetObj` on an in-use object fails, returns the zero value and
invokes nothing. -/
theorem getObj_of_isUsing {T : Type} [Inhabited T]
    (p : PObject T) (i c : Option Nat) (h : p.isUsing = true) :
    p.GetObj i c = { state := p, value := default, ok := false, events := [] } := by
  simp [PObject.GetObj, h]

/-- C4: the in-use flag alternates strictly.  A `GetObj` on a not-in-use
object succeeds and marks it in use; after any sequence of calls that
contains no successful `ReleaseObj`, a further `GetObj` fails and
invokes no callback. -/
theorem C4_inuse_alternation {T : Type} [Inhabited T]
    (p : PObject T) (i c i₂ c₂ : Option Nat) (ops : List (POp T))
    (h : p.isUsing = false)
    (hops : NoSuccessfulRelease (p.GetObj i c).state ops = true) :
    (p.GetObj i c).ok = true ∧
    (p.GetObj i c).state.isUsing = true ∧
    (((p.GetObj i c).state.runOps ops).GetObj i₂ c₂).ok = false ∧
    (((p.GetObj i c).state.runOps ops).GetObj i₂ c₂).events = [] := by
  have h2 : (p.GetObj i c).state.isUsing = true := by
    simp [PObject.GetObj, h]
  have h3 : (((p.GetObj i c).state).runOps ops).isUsing = true :=
    runOps_isUsing _ ops h2
  rw [getObj_of_isUsing _ i₂ c₂ h3]
  exact ⟨by simp [PObject.GetObj, h], h2, rfl, rfl⟩

/-- Witness for C4 at a concrete input: a fresh `PObject 0`, callbacks
`1`/`2`, then a failed release and a failed re-acquire. -/
theorem C4_inuse_alternation_witness :
    ((NewPObject (0 : Nat)).isUsing = false ∧
      NoSuccessfulRelease ((NewPObject (0 : Nat)).GetObj (some 1) (some 2)).state
        [POp.release 0, POp.get none none] = true) ∧
    (((NewPObject (0 : Nat)).GetObj (some 1) (some 2)).ok = true ∧
      ((NewPObject (0 : Nat)).GetObj (some 1) (some 2)).state.isUsing = true ∧
      ((((NewPObject (0 : Nat)).GetObj (some 1) (some 2)).state.runOps
          [POp.release 0, POp.get none none]).GetObj none none).ok = false ∧
      ((((NewPObject (0 : Nat)).GetObj (some 1) (some 2)).state.runOps
          [POp.release 0, POp.get none none]).GetObj none none).events = []) :=
  ⟨⟨by decide, by decide⟩,
    C4_inuse_alternation (NewPObject (0 : Nat)) (some 1) (some 2) none none
      [POp.release 0, POp.get none none] (by decide) (by decide)⟩

/-! ### Actor/base.go — MessageQueue

Ring buffer with monotonic `uint64` cursors.  `uint64` values are
modelled as `Nat` reduced `% 2 ^ 64` wherever the Go code computes;
`^uint64(1)` is the 64-bit complement of `1`, i.e. `2 ^ 64 - 2`, and
Go's `&` is `Nat.land`.  The Go constructor allocates the buffer with
`make([]interface{}, 0, size)`, i.e. a slice of length zero, so the
buffer is the empty list; a store to an index outside the buffer's
length panics in Go and is modelled as a `none` result. -/

structure MessageQueue (M : Type) where
  head : Nat
  tail : Nat
  buffer : List (Option M)
  modMask : Nat
  deriving Repr, DecidableEq

/-- Go `NewMessageQueue` (base.go lines 100–105): zero cursors, a buffer of
length 0 (capacity `size` is not length), and
`modMask = (size - 1) & ^uint64(1)` in `uint64` arithmetic. -/
def NewMessageQueue (M : Type) (size : Nat) : MessageQueue M :=
  { head := 0
    tail := 0
    buffer := []
    modMask := Nat.land ((size + (2 ^ 64 - 1)) % 2 ^ 64) (2 ^ 64 - 2) }

/-- Go `MessageQueue.Enqueue` (base.go lines 107–116): loads `tail`,
computes `next = tail + 1`; if `next & modMask == head` reports full
(false).  Otherwise stores at `buffer[tail & modMask]` — a panic
(`none`) when that index is outside the buffer's length — and publishes
the new tail. -/
def MessageQueue.Enqueue {M : Type} (q : MessageQueue M) (msg : M) :
    Option (MessageQueue M × Bool) :=
  let tail := q.tail
  let next := (tail + 1) % 2 ^ 64
  if Nat.land next q.modMask = q.head then
    some (q, false)
  else
    let i := Nat.land tail q.modMask
    if i < q.buffer.length then
      some ({ q with buffer := q.buffer.set i (some msg), tail := next }, true)
    else
      none

/-- Go `MessageQueue.Dequeue` (base.go lines 118–127): empty when
`head == tail`; otherwise reads `buffer[head & modMask]` (a panic,
`none`, when out of range) and publishes `head + 1`. -/
def MessageQueue.Dequeue {M : Type} (q : MessageQueue M) :
    Option (MessageQueue M × Option M × Bool) :=
  if q.head = q.tail then
    some (q, none, false)
  else
    let i := Nat.land q.head q.modMask
    if h : i < q.buffer.length then
      some ({ q with head := (q.head + 1) % 2 ^ 64 }, q.buffer.get ⟨i, h⟩, true)
    else
      none

/-- C2: the claim says the first `N` enqueues on a fresh power-of-two
queue succeed.  On the code, the very first `Enqueue` on a fresh queue
of capacity 8 already returns false: the constructor's mask is
`(8 - 1) & ^uint64(1) = 6`, so `next & modMask = 1 & 6 = 0` collides
with `head = 0` and the enqueue reports full.  (Had the guard passed,
the store would panic, since the buffer is created with length 0.) -/
theorem C2_first_enqueue_fails :
    (NewMessageQueue Nat 8).modMask = 6 ∧
    (NewMessageQueue Nat 8).buffer.length = 0 ∧
    (NewMessageQueue Nat 8).Enqueue 42 = some (NewMessageQueue Nat 8, false) := by
  refine ⟨by decide, rfl, by decide⟩

/-! ### ObjectPool/object_pool_manager.go — GenericObjectPool

Pooled values satisfy the `ObjectBase` capability `{OnGet, OnRelease}`.
Values are modelled as identifiers (`Nat`); the intrinsic lifecycle
calls the code performs are recorded as `LifecycleEv` events.  The
`sync.Pool` tier is modelled as a list of idle values together with a
fresh-id counter standing for the factory (`sync.Pool.New`). -/

/-- An intrinsic lifecycle call performed on a pooled value. -/
inductive LifecycleEv where
  | onGet (v : Nat)
  | onRelease (v : Nat)
  deriving Repr, DecidableEq

structure GenericObjectPool where
  hotCache : List Nat
  cacheCap : Nat
  basePool : List Nat
  nextId : Nat
  deriving Repr, DecidableEq

/-- Go `GenericObjectPool.GetObj` (object_pool_manager.go lines 56–69):
non-blocking receive from the hot cache first; on miss, `sync.Pool.Get`
(an idle value if any, else the factory).  In both branches the code
calls `obj.OnGet()` once and returns the value.  The caller-supplied
`init`/`callback` parameters are accepted and never invoked. -/
def GenericObjectPool.GetObj (gop : GenericObjectPool) :
    GenericObjectPool × Nat × List LifecycleEv :=
  match gop.hotCache with
  | v :: rest => ({ gop with hotCache := rest }, v, [.onGet v])
  | [] =>
      match gop.basePool with
      | v :: rest => ({ gop with basePool := rest }, v, [.onGet v])
      | [] =>
          let v := gop.nextId
          ({ gop with nextId := v + 1 }, v, [.onGet v])

/-- Go `GenericObjectPool.ReleaseObj` (object_pool_manager.go lines 72–79):
non-blocking send into the hot cache; when the cache is full,
`sync.Pool.Put`.  Returns nil either way.  No lifecycle call is made:
the code never invokes `obj.OnRelease()`. -/
def GenericObjectPool.ReleaseObj (gop : GenericObjectPool) (obj : Nat) :
    GenericObjectPool × List LifecycleEv :=
  if gop.hotCache.length < gop.cacheCap then
    ({ gop with hotCache := gop.hotCache ++ [obj] }, [])
  else
    ({ gop with basePool := obj :: gop.basePool }, [])

/-- C3: the claim says every value passed to
`GenericObjectPool.ReleaseObj` has its intrinsic `OnRelease()` invoked
exactly once before re-entering circulation.  On the code, `ReleaseObj`
performs no lifecycle call at all: releasing value `5` into a pool with
an empty hot cache of capacity 1 stores it back into the hot cache with
an empty event list (and the full-cache branch likewise emits nothing),
while `GetObj` does invoke `OnGet` once. -/
theorem C3_release_skips_onRelease :
    (GenericObjectPool.ReleaseObj ⟨[], 1, [], 0⟩ 5).2 = [] ∧
    (GenericObjectPool.ReleaseObj ⟨[], 1, [], 0⟩ 5).1.hotCache = [5] ∧
    (GenericObjectPool.ReleaseObj ⟨[9], 1, [], 0⟩ 5).2 = [] ∧
    (GenericObjectPool.ReleaseObj ⟨[9], 1, [], 0⟩ 5).1.basePool = [5] ∧
    (GenericObjectPool.GetObj ⟨[7], 1, [], 0⟩).2.2 = [.onGet 7] := by
  decide

/-! ### ObjectPool/object_pool_manager.go — Manager / RegisterPool / GetPool

The registry maps pool names to pools; pools are opaque identifiers.
The Go map is modelled as an association list consulted with
`List.lookup`. -/

/-- The two registry errors (Error/error.go lines 5–8). -/
inductive PoolErr where
  | alreadyRegistered
  | notFound
  deriving Repr, DecidableEq

structure Manager where
  pools : List (String × Nat)
  deriving Repr, DecidableEq

/-- Go `NewManager` (object_pool_manager.go lines 21–25): empty registry. -/
def NewManager : Manager := { pools := [] }

/-- Go `RegisterPool` (object_pool_manager.go lines 82–91): fails with
`ErrPoolAlreadyRegistered` when the name is taken, otherwise inserts. -/
def RegisterPool (opm : Manager) (name : String) (pool : Nat) :
    Manager × Option PoolErr :=
  match opm.pools.lookup name with
  | some _ => (opm, some .alreadyRegistered)
  | none => ({ pools := (name, pool) :: opm.pools }, none)

/-- Go `GetPool` (object_pool_manager.go lines 94–103): fails with
`ErrPoolNotFound` when the name is absent. -/
def GetPool (opm : Manager) (name : String) : Except PoolErr Nat :=
  match opm.pools.lookup name with
  | some pool => .ok pool
  | none => .error .notFound

/-- C7: on a name not yet registered, `GetPool` fails with `NotFound`
and the first `RegisterPool` succeeds; a second `RegisterPool` of the
same name then fails with `AlreadyRegistered` leaving the registry
unchanged, and `GetPool` now returns the registered pool.  Moreover,
for any manager, `GetPool` fails with `NotFound` exactly when the name
is unregistered. -/
theorem C7_register_get (opm opm₂ : Manager) (name : String) (p q : Nat)
    (h : opm.pools.lookup name = none) :
    GetPool opm name = .error .notFound ∧
    (RegisterPool opm name p).2 = none ∧
    (RegisterPool (RegisterPool opm name p).1 name q).2 = some .alreadyRegistered ∧
    (RegisterPool (RegisterPool opm name p).1 name q).1 = (RegisterPool opm name p).1 ∧
    GetPool (RegisterPool opm name p).1 name = .ok p ∧
    (GetPool opm₂ name = .error .notFound ↔ opm₂.pools.lookup name = none) := by
  refine ⟨?_, ?_, ?_, ?_, ?_, ?_⟩
  · simp [GetPool, h]
  · simp [RegisterPool, h]
  · simp [RegisterPool, h, List.lookup]
  · simp [RegisterPool, h, List.lookup]
  · simp [RegisterPool, GetPool, h, List.lookup]
  · cases h₂ : opm₂.pools.lookup name with
    | some v => simp [GetPool, h₂]
    | none => simp [GetPool, h₂]

/-- Witness for C7 at a concrete input: the empty registry and the name
`"keyframe_pool"`. -/
theorem C7_register_get_witness :
    (NewManager.pools.lookup "keyframe_pool" = none) ∧
    (GetPool NewManager "keyframe_pool" = .error .notFound ∧
      (RegisterPool NewManager "keyframe_pool" 1).2 = none ∧
      (RegisterPool (RegisterPool NewManager "keyframe_pool" 1).1 "keyframe_pool" 2).2 =
        some .alreadyRegistered ∧
      (RegisterPool (RegisterPool NewManager "keyframe_pool" 1).1 "keyframe_pool" 2).1 =
        (RegisterPool NewManager "keyframe_pool" 1).1 ∧
      GetPool (RegisterPool NewManager "keyframe_pool" 1).1 "keyframe_pool" = .ok 1 ∧
      (GetPool NewManager "keyframe_pool" = .error .notFound ↔
        NewManager.pools.lookup "keyframe_pool" = none)) :=
  ⟨by decide, C7_register_get NewManager NewManager "keyframe_pool" 1 2 (by decide)⟩

/-! ### Actor/balancer.go — Balancer

A worker is a bounded inbox of submitted closures (modelled as task
identifiers; the channel capacity 1024 is the code's literal).  The
balancer holds the workers and the shared round-robin counter
(`uint64`, hence `% 2 ^ 64`).  A nil task is modelled as `none`.
`runtime.NumCPU()` is a parameter `numCPU`.  Go's `%` on a zero worker
count would panic, modelled as a `none` result of `Submit`. -/

structure Worker where
  inbox : List Nat
  cap : Nat
  deriving Repr, DecidableEq

structure Balancer where
  workers : List Worker
  index : Nat
  deriving Repr, DecidableEq

/-- The channel capacity `1024` used for every worker inbox
(balancer.go lines 33 and 67). -/
def workerInboxCap : Nat := 1024

/-- Go `NewBalancer` (balancer.go lines 24–40): one empty worker per CPU,
counter at zero. -/
def NewBalancer (numCPU : Nat) : Balancer :=
  { workers := List.replicate numCPU ⟨[], workerInboxCap⟩, index := 0 }

/-- The `newSize` value `expandWorkers` computes (balancer.go lines
61–64): current count plus 10 %, clamped to `numCPU * 10`.  The code
computes this value and then never uses it — `expandWorkers` appends
exactly one worker regardless. -/
def expandNewSize (b : Balancer) (numCPU : Nat) : Nat :=
  let newSize := b.workers.length + b.workers.length / 10
  if newSize > numCPU * 10 then numCPU * 10 else newSize

/-- Go `Balancer.expandWorkers` (balancer.go lines 60–74): appends one
fresh empty worker and returns it (here: its index). -/
def Balancer.expandWorkers (b : Balancer) : Balancer × Nat :=
  ({ b with workers := b.workers ++ [⟨[], workerInboxCap⟩] }, b.workers.length)

/-- Outcome of one `Submit` call. -/
inductive SubmitOutcome where
  | ignoredNil
  | enqueued (idx : Nat)
  | expanded (newIdx : Nat)
  deriving Repr, DecidableEq

/-- Go `Balancer.Submit` (balancer.go lines 43–57): nil tasks are ignored;
otherwise the shared counter is atomically incremented and the target
worker is `(index + 1) % len(workers)`.  A non-full target inbox
receives the task; on a full target, `expandWorkers` appends one worker
and the task is sent to that fresh worker (its empty inbox always has
room). -/
def Balancer.Submit (b : Balancer) (task : Option Nat) :
    Option (Balancer × SubmitOutcome) :=
  match task with
  | none => some (b, .ignoredNil)
  | some t =>
      if hw : 0 < b.workers.length then
        let idx' := (b.index + 1) % 2 ^ 64
        let i := idx' % b.workers.length
        let w := b.workers.get ⟨i, Nat.mod_lt _ hw⟩
        if w.inbox.length < w.cap then
          some ({ workers := b.workers.set i { w with inbox := w.inbox ++ [t] },
                  index := idx' }, .enqueued i)
        else
          let e := Balancer.expandWorkers { b with index := idx' }
          some ({ e.1 with workers := e.1.workers.set e.2 ⟨[t], workerInboxCap⟩ },
            .expanded e.2)
      else none

/-- Setting the element just past `l` in `l ++ [x]` replaces `x`. -/
theorem set_append_length {α : Type} (l : List α) (x y : α) :
    (l ++ [x]).set l.length y = l ++ [y] := by
  induction l with
  | nil => rfl
  | cons a l ih => simp [List.set, ih]

/-- C5: `Submit` of a nil task is a no-op; a non-nil task goes to the
worker selected by the incremented round-robin counter modulo the
worker count when its inbox has room, and on a full target inbox
exactly one additional worker is created and the task lands in that
new worker's (empty, hence accepting) inbox — so the submission is
accepted after at most one expansion. -/
theorem C5_submit_accepts (b : Balancer) (t : Nat) (w : Worker)
    (hw : 0 < b.workers.length)
    (hwget : b.workers.get? (((b.index + 1) % 2 ^ 64) % b.workers.length) = some w) :
    Balancer.Submit b none = some (b, .ignoredNil) ∧
    Balancer.Submit b (some t) =
      some (if w.inbox.length < w.cap then
        ({ workers := b.workers.set (((b.index + 1) % 2 ^ 64) % b.workers.length)
              { w with inbox := w.inbox ++ [t] },
            index := (b.index + 1) % 2 ^ 64 },
          .enqueued (((b.index + 1) % 2 ^ 64) % b.workers.length))
      else
        ({ workers := b.workers ++ [{ inbox := [t], cap := workerInboxCap }],
            index := (b.index + 1) % 2 ^ 64 },
          .expanded b.workers.length)) := by
  have hi : ((b.index + 1) % 2 ^ 64) % b.workers.length < b.workers.length :=
    Nat.mod_lt _ hw
  have hwv : b.workers.get ⟨((b.index + 1) % 2 ^ 64) % b.workers.length, hi⟩ = w := by
    rw [List.get?_eq_get hi] at hwget
    exact Option.some.inj hwget
  refine ⟨rfl, ?_⟩
  by_cases hc : w.inbox.length < w.cap
  · simp only [Balancer.Submit, dif_pos hw, hwv, if_pos hc]
  · simp only [Balancer.Submit, dif_pos hw, hwv, if_neg hc, Balancer.expandWorkers,
      List.length_append]
    rw [set_append_length]

/-- Witness for C5 at a concrete input: a one-worker balancer and task
`7`, targeting the (empty) worker 0. -/
theorem C5_submit_accepts_witness :
    (0 < (NewBalancer 1).workers.length ∧
      (NewBalancer 1).workers.get?
        ((((NewBalancer 1).index + 1) % 2 ^ 64) % (NewBalancer 1).workers.length) =
        some ⟨[], workerInboxCap⟩) ∧
    (Balancer.Submit (NewBalancer 1) none = some (NewBalancer 1, .ignoredNil) ∧
      Balancer.Submit (NewBalancer 1) (some 7) =
        some (if ([] : List Nat).length < workerInboxCap then
          ({ workers := (NewBalancer 1).workers.set
                ((((NewBalancer 1).index + 1) % 2 ^ 64) % (NewBalancer 1).workers.length)
                { inbox := [] ++ [7], cap := workerInboxCap },
              index := ((NewBalancer 1).index + 1) % 2 ^ 64 },
            .enqueued ((((NewBalancer 1).index + 1) % 2 ^ 64) % (NewBalancer 1).workers.length))
        else
          ({ workers := (NewBalancer 1).workers ++ [{ inbox := [7], cap := workerInboxCap }],
              index := ((NewBalancer 1).index + 1) % 2 ^ 64 },
            .expanded (NewBalancer 1).workers.length))) :=
  ⟨⟨by decide, by decide⟩,
    C5_submit_accepts (NewBalancer 1) 7 ⟨[], workerInboxCap⟩ (by decide) (by decide)⟩

/-! C6 setup: states reachable from construction through `Submit` calls. -/

/-- Repeated non-nil submission (task id 0), propagating a panic. -/
def submitMany : Nat → Balancer → Option Balancer
  | 0, b => some b
  | k + 1, b =>
      match b.Submit (some 0) with
      | some (b', _) => submitMany k b'
      | none => none

/-- Balancer states reachable from `NewBalancer numCPU` by `Submit`
calls (the only operation that changes the worker list). -/
inductive BalancerReachable (numCPU : Nat) : Balancer → Prop where
  | init : BalancerReachable numCPU (NewBalancer numCPU)
  | step {b b' : Balancer} {t : Option Nat} {o : SubmitOutcome} :
      BalancerReachable numCPU b → b.Submit t = some (b', o) →
      BalancerReachable numCPU b'

/-- Lemma: `submitMany` only visits reachable states. -/
theorem submitMany_reachable {numCPU : Nat} (k : Nat) {b b' : Balancer}
    (hb : BalancerReachable numCPU b) (h : submitMany k b = some b') :
    BalancerReachable numCPU b' := by
  induction k generalizing b with
  | zero => exact Option.some.inj h ▸ hb
  | succ k ih =>
      simp only [submitMany] at h
      cases hs : b.Submit (some 0) with
      | none => rw [hs] at h; cases h
      | some r =>
          rw [hs] at h
          exact ih (BalancerReachable.step hb hs) h

set_option maxRecDepth 400000 in
/-- C6: the claim says the worker count never exceeds `10 * numCPU` in
any reachable state.  The code computes that cap into `newSize` and
never uses it: every expansion appends one worker unconditionally.
With one CPU, 1060 consecutive non-nil submissions drive the balancer
to 11 workers, exceeding the cap `10 * 1`. -/
theorem C6_worker_cap_exceeded :
    ∃ b : Balancer, BalancerReachable 1 b ∧ 10 * 1 < b.workers.length := by
  have key : (match submitMany 1060 (NewBalancer 1) with
      | some b => decide (10 * 1 < b.workers.length)
      | none => false) = true := by decide
  cases hEq : submitMany 1060 (NewBalancer 1) with
  | none => rw [hEq] at key; cases key
  | some b =>
      rw [hEq] at key
      exact ⟨b, submitMany_reachable 1060 BalancerReachable.init hEq,
        of_decide_eq_true key⟩

/-! ### Actor/base.go — BaseActor processing loop on cancellation

State of the `processMessages` task: the mailbox channel's buffered
contents, the local batch `msgs`, the messages handed to `batchHandle`
so far (in batch order), whether the context is cancelled, and whether
the task has returned.  The loop's three `select` branches become the
three steps below; Go's `select` picks among ready branches
nondeterministically, so the steps form a relation. -/

/-- The `batchSize` constant of `processMessages` (base.go line 56). -/
def batchSize : Nat := 64

structure ActorState (M : Type) where
  mailbox : List M
  batch : List M
  dispatched : List M
  cancelled : Bool
  exited : Bool
  deriving Repr, DecidableEq

/-- The `<-a.ctx.Done()` branch of `processMessages` (base.go lines
67–69): `a.batchHandle(msgs); return` — the current partial batch is
dispatched and the task exits.  The mailbox channel is not read. -/
def onCancel {M : Type} (s : ActorState M) : ActorState M :=
  { s with dispatched := s.dispatched ++ s.batch, batch := [], exited := true }

/-- The `msg := <-a.mailbox` branch (base.go lines 61–66): take one
buffered message into the batch; dispatch the batch when it reaches
`batchSize`. -/
def onRecv {M : Type} (s : ActorState M) (m : M) (rest : List M) : ActorState M :=
  let batch' := s.batch ++ [m]
  if batchSize ≤ batch'.length then
    { s with mailbox := rest, batch := [], dispatched := s.dispatched ++ batch' }
  else
    { s with mailbox := rest, batch := batch' }

/-- The `default` branch (base.go lines 70–76): flush a non-empty
partial batch when the mailbox is momentarily empty. -/
def onIdle {M : Type} (s : ActorState M) : ActorState M :=
  if s.batch.isEmpty then s
  else { s with batch := [], dispatched := s.dispatched ++ s.batch }

/-- One scheduler-chosen step of the `processMessages` loop. -/
inductive ActorStep {M : Type} : ActorState M → ActorState M → Prop where
  | recv {s : ActorState M} {m : M} {rest : List M} :
      s.exited = false → s.mailbox = m :: rest → ActorStep s (onRecv s m rest)
  | idle {s : ActorState M} :
      s.exited = false → ActorStep s (onIdle s)
  | cancel {s : ActorState M} :
      s.exited = false → s.cancelled = true → ActorStep s (onCancel s)

/-- C8 as stated is false: with message `42` buffered in the mailbox, an
empty partial batch and the context cancelled, the loop may take the
`ctx.Done()` branch, which dispatches only the partial batch and
returns — the task exits with `42` still in the mailbox and never
dispatched. -/
theorem C8_mailbox_dropped_on_cancel :
    ActorStep (⟨[42], [], [], true, false⟩ : ActorState Nat)
      (onCancel ⟨[42], [], [], true, false⟩) ∧
    (onCancel (⟨[42], [], [], true, false⟩ : ActorState Nat)).exited = true ∧
    (onCancel (⟨[42], [], [], true, false⟩ : ActorState Nat)).dispatched = [] ∧
    (onCancel (⟨[42], [], [], true, false⟩ : ActorState Nat)).mailbox = [42] :=
  ⟨ActorStep.cancel rfl rfl, rfl, rfl, rfl⟩

/-- C8 amended: on cancellation the task dispatches exactly the current
partial batch before exiting, leaving the mailbox contents unread. -/
theorem C8_cancel_flushes_partial_batch {M : Type} (s : ActorState M) :
    (onCancel s).dispatched = s.dispatched ++ s.batch ∧
    (onCancel s).batch = [] ∧
    (onCancel s).exited = true ∧
    (onCancel s).mailbox = s.mailbox :=
  ⟨rfl, rfl, rfl, rfl⟩

/-! ### Timer — KeyFrame (Timer/safe.go, unnamed Timer part) and ZTimer
(Timer/ztimer.go)

`float32` times appear only in order comparisons against literals, so
they are modelled as `ℚ`.  A keyframe action `func()` is an opaque
identifier; an executed action is recorded in the returned event list.
A nil action is `none`. -/

inductive TimerErr where
  | invalidParameters
  | nilKeyFrameAction
  | timerAlreadyRunning
  | invalidKeyFrameTime
  deriving Repr, DecidableEq

structure KeyFrame where
  time : ℚ
  action : Option Nat
  isTrigger : Bool
  deriving Repr, DecidableEq

/-- Go `KeyFrame.Trigger` (unnamed Timer part lines 32–39; Timer/safe.go
lines 34–52 behaves identically up to running the action
asynchronously): when the keyframe is untriggered and its action is
non-nil, run the action and set the triggered flag; otherwise do
nothing. -/
def KeyFrame.Trigger (kf : KeyFrame) : KeyFrame × List Nat :=
  if kf.isTrigger then (kf, [])
  else
    match kf.action with
    | some a => ({ kf with isTrigger := true }, [a])
    | none => (kf, [])

/-- Go `KeyFrame.Reset` (unnamed Timer part lines 42–46): clear the
triggered flag. -/
def KeyFrame.Reset (kf : KeyFrame) : KeyFrame :=
  { kf with isTrigger := false }

/-- Go `KeyFrame.Set` (Timer/safe.go lines 10–24): validate, then store
both fields and clear the triggered flag. -/
def KeyFrame.Set (kf : KeyFrame) (t : ℚ) (action : Option Nat) :
    KeyFrame × Option TimerErr :=
  if t ≤ 0 then (kf, some .invalidKeyFrameTime)
  else if action.isNone then (kf, some .nilKeyFrameAction)
  else ({ time := t, action := action, isTrigger := false }, none)

/-- Go `KeyFrame.OnGet` (unnamed Timer part): on checkout, clear the
triggered flag and the stale action. -/
def KeyFrame.OnGet (kf : KeyFrame) : KeyFrame :=
  { kf with isTrigger := false, action := none }

/-- Iterated `Trigger`, collecting all executed actions. -/
def KeyFrame.triggerMany : Nat → KeyFrame → KeyFrame × List Nat
  | 0, kf => (kf, [])
  | n + 1, kf =>
      let r := kf.Trigger
      let r' := KeyFrame.triggerMany n r.1
      (r'.1, r.2 ++ r'.2)

/-- On an already-triggered keyframe, `Trigger` is the identity and runs
nothing. -/
theorem trigger_of_isTrigger (kf : KeyFrame) (h : kf.isTrigger = true) :
    kf.Trigger = (kf, []) := by
  simp [KeyFrame.Trigger, h]

/-- Iterated `Trigger` on an already-triggered keyframe changes nothing
and runs nothing. -/
theorem triggerMany_of_isTrigger (n : Nat) (kf : KeyFrame)
    (h : kf.isTrigger = true) :
    KeyFrame.triggerMany n kf = (kf, []) := by
  induction n with
  | zero => rfl
  | succ n ih => simp [KeyFrame.triggerMany, trigger_of_isTrigger kf h, ih]

/-- C10: a first `Trigger` on an untriggered keyframe with a non-nil
action runs the action once and sets the triggered flag; any number of
subsequent `Trigger` calls without an intervening clear are no-ops that
run nothing; and `Reset` and `OnGet` clear the flag again. -/
theorem C10_trigger_at_most_once (kf : KeyFrame) (a : Nat) (n : Nat)
    (h1 : kf.isTrigger = false) (h2 : kf.action = some a) :
    kf.Trigger = ({ kf with isTrigger := true }, [a]) ∧
    KeyFrame.triggerMany n kf.Trigger.1 = (kf.Trigger.1, []) ∧
    (kf.Trigger.1.Reset).isTrigger = false ∧
    (kf.Trigger.1.OnGet).isTrigger = false := by
  have ht : kf.Trigger = ({ kf with isTrigger := true }, [a]) := by
    simp [KeyFrame.Trigger, h1, h2]
  refine ⟨ht, ?_, by simp [KeyFrame.Reset], by simp [KeyFrame.OnGet]⟩
  rw [ht]
  exact triggerMany_of_isTrigger n _ rfl

/-- Witness for C10 at a concrete input: keyframe at time 1 with action
`5`, triggered once and then three more times. -/
theorem C10_trigger_at_most_once_witness :
    ((⟨1, some 5, false⟩ : KeyFrame).isTrigger = false ∧
      (⟨1, some 5, false⟩ : KeyFrame).action = some 5) ∧
    ((⟨1, some 5, false⟩ : KeyFrame).Trigger =
        ({ (⟨1, some 5, false⟩ : KeyFrame) with isTrigger := true }, [5]) ∧
      KeyFrame.triggerMany 3 (⟨1, some 5, false⟩ : KeyFrame).Trigger.1 =
        ((⟨1, some 5, false⟩ : KeyFrame).Trigger.1, []) ∧
      ((⟨1, some 5, false⟩ : KeyFrame).Trigger.1.Reset).isTrigger = false ∧
      ((⟨1, some 5, false⟩ : KeyFrame).Trigger.1.OnGet).isTrigger = false) :=
  ⟨⟨rfl, rfl⟩, C10_trigger_at_most_once ⟨1, some 5, false⟩ 5 3 rfl rfl⟩

/-! ### Timer/ztimer.go — ZTimer construction and keyframe addition

The structured logger is an external collaborator (spec §6); its
initialisation is modelled as succeeding.  `GetKeyFrame`'s pool-backed
acquisition (unnamed Timer part) is modelled by its validation followed
by production of a configured keyframe. -/

structure ZTimer where
  offsetTime : ℚ
  keyFrames : List KeyFrame
  isRun : Bool
  currentTimer : ℚ
  maxTimer : ℚ
  isLoop : Bool
  deriving Repr, DecidableEq

/-- Go `NewZTimer` (ztimer.go lines 29–47): a non-positive offset is
rejected with `ErrInvalidTimerParameters` before anything is built;
otherwise a stopped timer with no keyframes is returned. -/
def NewZTimer (offsetTime : ℚ) : Option ZTimer × Option TimerErr :=
  if offsetTime ≤ 0 then (none, some .invalidParameters)
  else
    (some { offsetTime := offsetTime, keyFrames := [], isRun := false,
            currentTimer := 0, maxTimer := 0, isLoop := false }, none)

/-- Go `GetKeyFrame` (unnamed Timer part lines 91–140): validate the
parameters, then acquire a keyframe from the pool and configure it with
the given time and action (pool recycling abstracted to the produced
configured keyframe). -/
def GetKeyFrame (t : ℚ) (action : Option Nat) : Except TimerErr KeyFrame :=
  if t ≤ 0 then .error .invalidKeyFrameTime
  else if action.isNone then .error .nilKeyFrameAction
  else .ok { time := t, action := action, isTrigger := false }

/-- Go `ZTimer.AddKeyFrame` (ztimer.go lines 50–73): a non-positive time is
rejected with `ErrInvalidTimerParameters` and a nil action with
`ErrNilKeyFrameAction`, both before the lock is taken and before any
mutation; a running timer is rejected next; otherwise the acquired
keyframe is appended. -/
def ZTimer.AddKeyFrame (zt : ZTimer) (t : ℚ) (action : Option Nat) :
    ZTimer × Option TimerErr :=
  if t ≤ 0 then (zt, some .invalidParameters)
  else if action.isNone then (zt, some .nilKeyFrameAction)
  else if zt.isRun then (zt, some .timerAlreadyRunning)
  else
    match GetKeyFrame t action with
    | .error e => (zt, some e)
    | .ok kf => ({ zt with keyFrames := zt.keyFrames ++ [kf] }, none)

/-- C9: configuration errors are rejected at the call that introduces
them, before any state mutation: `NewZTimer` with a non-positive offset
returns the invalid-parameters error and constructs nothing, and
`AddKeyFrame` with a non-positive time or a nil action returns an error
with the timer — in particular its keyframe list — unchanged. -/
theorem C9_config_errors_rejected (off t : ℚ) (zt : ZTimer) (action : Option Nat)
    (h1 : off ≤ 0) (h2 : t ≤ 0 ∨ action = none) :
    NewZTimer off = (none, some .invalidParameters) ∧
    (zt.AddKeyFrame t action).1 = zt ∧
    ((zt.AddKeyFrame t action).2 = some .invalidParameters ∨
      (zt.AddKeyFrame t action).2 = some .nilKeyFrameAction) := by
  refine ⟨by simp [NewZTimer, h1], ?_, ?_⟩
  · by_cases ht : t ≤ 0
    · simp [ZTimer.AddKeyFrame, ht]
    · rcases h2 with h2 | h2
      · exact absurd h2 ht
      · simp [ZTimer.AddKeyFrame, ht, h2]
  · by_cases ht : t ≤ 0
    · left; simp [ZTimer.AddKeyFrame, ht]
    · rcases h2 with h2 | h2
      · exact absurd h2 ht
      · right; simp [ZTimer.AddKeyFrame, ht, h2]

/-- Witness for C9 at a concrete input: offset `-1`, keyframe time `0`
on a fresh stopped timer. -/
theorem C9_config_errors_rejected_witness :
    ((-1 : ℚ) ≤ 0 ∧ ((0 : ℚ) ≤ 0 ∨ (some 3 : Option Nat) = none)) ∧
    (NewZTimer (-1) = (none, some .invalidParameters) ∧
      ((⟨1, [], false, 0, 0, false⟩ : ZTimer).AddKeyFrame 0 (some 3)).1 =
        (⟨1, [], false, 0, 0, false⟩ : ZTimer) ∧
      ((((⟨1, [], false, 0, 0, false⟩ : ZTimer).AddKeyFrame 0 (some 3)).2 =
          some .invalidParameters) ∨
        (((⟨1, [], false, 0, 0, false⟩ : ZTimer).AddKeyFrame 0 (some 3)).2 =
          some .nilKeyFrameAction))) :=
  ⟨⟨by norm_num, Or.inl (by norm_num)⟩,
    C9_config_errors_rejected (-1) 0 ⟨1, [], false, 0, 0, false⟩ (some 3)
      (by norm_num) (Or.inl (by norm_num))⟩

end Zdopt
